import Mathlib

/-!
Alari user-data backend: verification of the chat-turn orchestration and
conversation-consistency claims.

Shallow embedding of the relevant parts of the repository:
* `src/database_models.py` — the ORM rows become Lean structures;
* `src/crud.py` — each CRUD function becomes a pure state transformer on a
  `DB` value.  Every `db.commit()` in the Python source produces one entry in
  the returned *trace* of committed (externally observable) database states,
  so atomicity / intermediate-visibility claims can be stated as properties
  of that trace;
* `src/routes/chat.py`, `src/routes/conversations.py`, `src/routes/goals.py`
  — each route becomes a function from the authenticated caller's user id and
  the request to an `Except HttpError` result plus the final state and trace.

Timestamps: `datetime.now(timezone.utc)` is modelled by a logical clock
(`DB.clock`, a `Nat`) that is read and then advanced on every use, so
successive reads are strictly increasing — this realises the source's
reliance on message `created_at` order (ties broken by insertion order; with
a strictly increasing clock, insertion order *is* `created_at` order, so
`get_conversation_messages`' `ORDER BY created_at` is the plain filter).

The external inference service (`httpx` calls) is an input to each route:
the buffered route takes the service's outcome (`InferenceOutcome`), the
streaming route takes the chunk sequence the upstream stream delivers and
how it ends (`Upstream`).
-/

/-- `database_models.Message` row. -/
structure Msg where
  id : Nat
  conversation_id : Nat
  role : String
  content : String
  keywords : Option (List String)
  created_at : Nat
deriving Repr, DecidableEq

/-- `database_models.Conversation` row. -/
structure Conv where
  id : Nat
  user_id : Nat
  session_id : String
  title : Option String
  created_at : Nat
  updated_at : Nat
deriving Repr, DecidableEq

/-- `database_models.Goal` row. -/
structure Goal where
  id : Nat
  user_id : Nat
  title : String
  description : Option String
  status : String
  streak_count : Nat
  created_at : Nat
  updated_at : Nat
deriving Repr, DecidableEq

/-- `database_models.GoalCheckIn` row. -/
structure GoalCheckIn where
  id : Nat
  goal_id : Nat
  check_in_date : Nat
  progress_note : Option String
  completed : Bool
deriving Repr, DecidableEq

/-- The relational store: the tables (rows in insertion order), the
primary-key allocators, and the logical clock. -/
structure DB where
  conversations : List Conv
  messages : List Msg
  goals : List Goal
  check_ins : List GoalCheckIn
  nextConvId : Nat
  nextMsgId : Nat
  nextGoalId : Nat
  nextCheckInId : Nat
  clock : Nat
deriving Repr, DecidableEq

/-- `crud.get_conversation_by_session_id`: `.filter(session_id == sid).first()`. -/
def get_conversation_by_session_id (db : DB) (sid : String) : Option Conv :=
  db.conversations.find? (fun c => c.session_id == sid)

/-- `crud.get_conversation_messages`: messages of one conversation ordered by
`created_at` (equal to insertion order here, since the clock strictly
increases). -/
def get_conversation_messages (db : DB) (conversation_id : Nat) : List Msg :=
  db.messages.filter (fun m => m.conversation_id == conversation_id)

/-- `crud.update_conversation_timestamp`: look the conversation up by primary
key and, when present, set `updated_at` to now and commit.  Returns the new
state and the trace of committed states (empty when the row is absent: the
source then never calls `db.commit()` with a change). -/
def update_conversation_timestamp (db : DB) (conversation_id : Nat) :
    DB × List DB :=
  match db.conversations.find? (fun c => c.id == conversation_id) with
  | none => (db, [])
  | some _ =>
    let db1 : DB := { db with
      conversations := db.conversations.map (fun c =>
        if c.id == conversation_id then { c with updated_at := db.clock } else c),
      clock := db.clock + 1 }
    (db1, [db1])

/-- `crud.create_message`: insert the message and commit, then (a separate
unit of work) touch the parent conversation's `updated_at` and commit. -/
def create_message (db : DB) (conversation_id : Nat) (role content : String)
    (keywords : Option (List String)) : Msg × DB × List DB :=
  let msg : Msg :=
    { id := db.nextMsgId, conversation_id := conversation_id, role := role,
      content := content, keywords := keywords, created_at := db.clock }
  let db1 : DB := { db with
    messages := db.messages ++ [msg],
    nextMsgId := db.nextMsgId + 1,
    clock := db.clock + 1 }
  let r2 := update_conversation_timestamp db1 conversation_id
  (msg, r2.1, db1 :: r2.2)

/-- `crud.create_conversation`: allocate a fresh external session handle
(`uuid4` in the source, modelled by the injective handle derived from the
fresh primary key), insert and commit. -/
def create_conversation (db : DB) (user_id : Nat) (title : Option String) :
    Conv × DB × List DB :=
  let conv : Conv :=
    { id := db.nextConvId, user_id := user_id,
      session_id := "conv-" ++ toString db.nextConvId, title := title,
      created_at := db.clock, updated_at := db.clock }
  let db1 : DB := { db with
    conversations := db.conversations ++ [conv],
    nextConvId := db.nextConvId + 1,
    clock := db.clock + 1 }
  (conv, db1, [db1])

/-- `crud.delete_conversation`: delete the conversation (cascading to its
messages, per the `cascade="all, delete-orphan"` relationship) and commit. -/
def delete_conversation (db : DB) (sid : String) : Bool × DB × List DB :=
  match get_conversation_by_session_id db sid with
  | none => (false, db, [])
  | some conv =>
    let db1 : DB := { db with
      conversations := db.conversations.filter (fun c => !(c.id == conv.id)),
      messages := db.messages.filter (fun m => !(m.conversation_id == conv.id)) }
    (true, db1, [db1])

/-- Modelled from the spec: `crud.create_message_pair` is called by the
buffered chat route (`src/routes/chat.py`, step 4) but its definition is not
among the provided sources — only its caller is.  Per spec §4.3,
`appendMessagePair(conversationId, userContent, assistantContent)` appends a
user message immediately followed by an assistant message as a single atomic
unit (both succeed or neither does — one unit of work, hence one committed
state), assigns monotonically increasing order, and touches the
conversation's `updated_at` in the same unit of work (§3: the last-updated
timestamp must advance on every message append). -/
def create_message_pair (db : DB) (conversation_id : Nat)
    (user_message assistant_message : String) : (Msg × Msg) × DB × List DB :=
  let umsg : Msg :=
    { id := db.nextMsgId, conversation_id := conversation_id, role := "user",
      content := user_message, keywords := none, created_at := db.clock }
  let amsg : Msg :=
    { id := db.nextMsgId + 1, conversation_id := conversation_id,
      role := "assistant", content := assistant_message, keywords := none,
      created_at := db.clock + 1 }
  let db1 : DB := { db with
    messages := db.messages ++ [umsg, amsg],
    nextMsgId := db.nextMsgId + 2,
    conversations := db.conversations.map (fun c =>
      if c.id == conversation_id then { c with updated_at := db.clock + 2 } else c),
    clock := db.clock + 3 }
  ((umsg, amsg), db1, [db1])

/-- `crud.get_goal_by_id`. -/
def get_goal_by_id (db : DB) (goal_id : Nat) : Option Goal :=
  db.goals.find? (fun g => g.id == goal_id)

/-- `crud.create_goal_checkin`: insert the check-in and commit; then, only
when `completed` and the goal row exists, increment the goal's streak and
commit again. -/
def create_goal_checkin (db : DB) (goal_id : Nat)
    (progress_note : Option String) (completed : Bool) :
    GoalCheckIn × DB × List DB :=
  let checkin : GoalCheckIn :=
    { id := db.nextCheckInId, goal_id := goal_id,
      check_in_date := db.clock, progress_note := progress_note,
      completed := completed }
  let db1 : DB := { db with
    check_ins := db.check_ins ++ [checkin],
    nextCheckInId := db.nextCheckInId + 1,
    clock := db.clock + 1 }
  if completed then
    match get_goal_by_id db1 goal_id with
    | some _ =>
      let db2 : DB := { db1 with
        goals := db1.goals.map (fun g =>
          if g.id == goal_id then
            { g with streak_count := g.streak_count + 1, updated_at := db1.clock }
          else g),
        clock := db1.clock + 1 }
      (checkin, db2, [db1, db2])
    | none => (checkin, db1, [db1])
  else (checkin, db1, [db1])

/-- `crud.get_checkin_by_id`. -/
def get_checkin_by_id (db : DB) (checkin_id : Nat) : Option GoalCheckIn :=
  db.check_ins.find? (fun c => c.id == checkin_id)

/-- `crud.update_checkin`: when the check-in exists, overwrite the
non-`None` fields and commit. -/
def update_checkin (db : DB) (checkin_id : Nat)
    (progress_note : Option String) (completed : Option Bool) :
    Option GoalCheckIn × DB × List DB :=
  match get_checkin_by_id db checkin_id with
  | none => (none, db, [])
  | some _ =>
    let upd : GoalCheckIn → GoalCheckIn := fun c =>
      if c.id == checkin_id then
        let c1 := match progress_note with
          | some n => { c with progress_note := some n }
          | none => c
        match completed with
          | some b => { c1 with completed := b }
          | none => c1
      else c
    let db1 : DB := { db with check_ins := db.check_ins.map upd }
    (get_checkin_by_id db1 checkin_id, db1, [db1])

/-- `crud.delete_checkin`. -/
def delete_checkin (db : DB) (checkin_id : Nat) : Bool × DB × List DB :=
  match get_checkin_by_id db checkin_id with
  | none => (false, db, [])
  | some _ =>
    let db1 : DB := { db with
      check_ins := db.check_ins.filter (fun c => !(c.id == checkin_id)) }
    (true, db1, [db1])

/-! ## Route layer

Each route takes the authenticated caller's user id (`auth.get_current_user`
resolves the bearer token to a `User`; only the id is used downstream) and
the request, and returns the response (`Except HttpError …`), the final
database state and the trace of committed states. -/

/-- The `HTTPException` status codes the routes raise. -/
inductive HttpError
  | notFound
  | forbidden
  | serviceUnavailable
  | gatewayTimeout
  | internalError
deriving Repr, DecidableEq

/-- Outcome of the buffered call to the inference service
(`POST {INFERENCE_SERVICE_URL}/inference/chat` in `send_message`). -/
inductive InferenceOutcome
  | ok (response : String) (usage : List (String × Nat))
  | non200 (code : Nat)
  | timeout
  | connectError (e : String)
  | otherError (e : String)
deriving Repr, DecidableEq

/-- `schemasx.MessageResponse`. -/
structure MessageResponse where
  id : Nat
  role : String
  content : String
  created_at : Nat
deriving Repr, DecidableEq

/-- `schemasx.ChatResponse`. -/
structure ChatResponse where
  session_id : String
  user_message : MessageResponse
  assistant_message : MessageResponse
  usage : List (String × Nat)
deriving Repr, DecidableEq

/-- `schemasx.ConversationResponse`. -/
structure ConversationResponse where
  id : Nat
  session_id : String
  title : Option String
  created_at : Nat
  updated_at : Nat
  message_count : Nat
deriving Repr, DecidableEq

/-- `routes/chat.py::send_message` (buffered turn).  Steps as in the source:
look up by session handle (404 when absent), ownership check (403 when the
caller is not the owner), assemble history in memory, call inference, and on
status 200 commit both messages via `create_message_pair` and return them.
Failure mapping follows the source exactly: the `HTTPException(503)` raised
for a non-200 status inside the `try` block is itself caught by the blanket
`except Exception` clause, so a non-200 upstream status actually surfaces as
a 500, like any other in-`try` exception; `httpx.TimeoutException` maps to
504 and `httpx.RequestError` to 503.  No failure path performs any write. -/
def send_message (db : DB) (uid : Nat) (session_id req_message : String)
    (inf : InferenceOutcome) : Except HttpError ChatResponse × DB × List DB :=
  match get_conversation_by_session_id db session_id with
  | none => (.error .notFound, db, [])
  | some conversation =>
    if conversation.user_id ≠ uid then (.error .forbidden, db, [])
    else
      match inf with
      | .timeout => (.error .gatewayTimeout, db, [])
      | .connectError _ => (.error .serviceUnavailable, db, [])
      | .non200 _ => (.error .internalError, db, [])
      | .otherError _ => (.error .internalError, db, [])
      | .ok response usage =>
        let r := create_message_pair db conversation.id req_message response
        let user_msg := r.1.1
        let assistant_msg := r.1.2
        (.ok { session_id := session_id,
               user_message := { id := user_msg.id, role := user_msg.role,
                                 content := user_msg.content,
                                 created_at := user_msg.created_at },
               assistant_message := { id := assistant_msg.id,
                                      role := assistant_msg.role,
                                      content := assistant_msg.content,
                                      created_at := assistant_msg.created_at },
               usage := usage },
         r.2.1, r.2.2)

/-- How the upstream streaming response ends: either the chunk iterator is
exhausted normally, or an exception is raised (connection failure, timeout,
mid-stream error) after the listed chunks were delivered. -/
inductive StreamEnd
  | normal
  | failed (e : String)
deriving Repr, DecidableEq

/-- What the upstream stream delivers: the text chunks received in order,
and how the stream ends. -/
structure Upstream where
  chunks : List String
  ending : StreamEnd
deriving Repr, DecidableEq

/-- The in-band terminal error marker `stream_generator` yields on failure. -/
def errorMarker (e : String) : String := "\n[ERROR: " ++ e ++ "]"

/-- `routes/chat.py::stream_generator`: forward each chunk while accumulating
`full_response`; on an exception, yield the error marker and return without
writing; after normal completion, persist the accumulated text as one
assistant message — but only when it is nonempty.  Returns the forwarded
output sequence, the final state and the trace. -/
def stream_generator (db : DB) (conversation_id : Nat) (u : Upstream) :
    List String × DB × List DB :=
  let full_response := String.join u.chunks
  match u.ending with
  | .failed e => (u.chunks ++ [errorMarker e], db, [])
  | .normal =>
    if full_response ≠ "" then
      let r := create_message db conversation_id "assistant" full_response none
      (u.chunks, r.2.1, r.2.2)
    else (u.chunks, db, [])

/-- `routes/chat.py::send_message_streaming`: collapsed not-found/not-owned
check (404 for both), persist the user message immediately, then run the
stream generator. -/
def send_message_streaming (db : DB) (uid : Nat) (session_id req_message : String)
    (u : Upstream) : Except HttpError (List String) × DB × List DB :=
  match get_conversation_by_session_id db session_id with
  | none => (.error .notFound, db, [])
  | some conversation =>
    if conversation.user_id ≠ uid then (.error .notFound, db, [])
    else
      let r1 := create_message db conversation.id "user" req_message none
      let r2 := stream_generator r1.2.1 conversation.id u
      (.ok r2.1, r2.2.1, r1.2.2 ++ r2.2.2)

/-- `config.SYSTEM_PROMPT` (the coaching persona prompt). -/
def SYSTEM_PROMPT : String :=
  "\nYou are Alari, a compassionate, helpful personal growth coach and motivational companion for accomplishing goals. Always answer in a personal, interactive way. Always refer to yourself as Alari. Be warm, encouraging, and non-judgmental. Knowledge cutoff: October 2025. If unsure, ask clarifying questions.\n"

/-- `routes/conversations.py::create_conversation`: create the conversation
row (first commit), then insert the system-role persona message via
`create_message` (further commits); the response reports `message_count=1`. -/
def create_conversation_route (db : DB) (uid : Nat) (title : Option String) :
    ConversationResponse × DB × List DB :=
  let r1 := create_conversation db uid title
  let conversation := r1.1
  let r2 := create_message r1.2.1 conversation.id "system" SYSTEM_PROMPT none
  ({ id := conversation.id, session_id := conversation.session_id,
     title := conversation.title, created_at := conversation.created_at,
     updated_at := conversation.updated_at, message_count := 1 },
   r2.2.1, r1.2.2 ++ r2.2.2)

/-- `routes/conversations.py::get_conversation`: collapsed 404 check, then
the conversation with its message count. -/
def get_conversation_route (db : DB) (uid : Nat) (session_id : String) :
    Except HttpError ConversationResponse :=
  match get_conversation_by_session_id db session_id with
  | none => .error .notFound
  | some c =>
    if c.user_id ≠ uid then .error .notFound
    else .ok { id := c.id, session_id := c.session_id, title := c.title,
               created_at := c.created_at, updated_at := c.updated_at,
               message_count := (get_conversation_messages db c.id).length }

/-- `routes/conversations.py::get_messages`: collapsed 404 check, then the
full ordered message list. -/
def get_messages_route (db : DB) (uid : Nat) (session_id : String) :
    Except HttpError (List Msg) :=
  match get_conversation_by_session_id db session_id with
  | none => .error .notFound
  | some c =>
    if c.user_id ≠ uid then .error .notFound
    else .ok (get_conversation_messages db c.id)

/-- `routes/conversations.py::delete_conversation`: collapsed 404 check, then
`crud.delete_conversation` (cascading) and a 204 response. -/
def delete_conversation_route (db : DB) (uid : Nat) (session_id : String) :
    Except HttpError Unit × DB × List DB :=
  match get_conversation_by_session_id db session_id with
  | none => (.error .notFound, db, [])
  | some c =>
    if c.user_id ≠ uid then (.error .notFound, db, [])
    else
      let r := delete_conversation db session_id
      (.ok (), r.2.1, r.2.2)

/-- `routes/goals.py::create_checkin`: collapsed 404 ownership check on the
goal, then `crud.create_goal_checkin`. -/
def create_checkin_route (db : DB) (uid goal_id : Nat)
    (progress_note : Option String) (completed : Bool) :
    Except HttpError GoalCheckIn × DB × List DB :=
  match get_goal_by_id db goal_id with
  | none => (.error .notFound, db, [])
  | some g =>
    if g.user_id ≠ uid then (.error .notFound, db, [])
    else
      let r := create_goal_checkin db goal_id progress_note completed
      (.ok r.1, r.2.1, r.2.2)

/-- `routes/goals.py::update_checkin`: collapsed 404 ownership check on the
goal, then `crud.update_checkin` (404 when the check-in row is absent). -/
def update_checkin_route (db : DB) (uid goal_id checkin_id : Nat)
    (progress_note : Option String) (completed : Option Bool) :
    Except HttpError GoalCheckIn × DB × List DB :=
  match get_goal_by_id db goal_id with
  | none => (.error .notFound, db, [])
  | some g =>
    if g.user_id ≠ uid then (.error .notFound, db, [])
    else
      let r := update_checkin db checkin_id progress_note completed
      match r.1 with
      | none => (.error .notFound, r.2.1, r.2.2)
      | some c => (.ok c, r.2.1, r.2.2)

/-- `routes/goals.py::delete_checkin`: collapsed 404 ownership check on the
goal, then `crud.delete_checkin` (404 when the check-in row is absent). -/
def delete_checkin_route (db : DB) (uid goal_id checkin_id : Nat) :
    Except HttpError Unit × DB × List DB :=
  match get_goal_by_id db goal_id with
  | none => (.error .notFound, db, [])
  | some g =>
    if g.user_id ≠ uid then (.error .notFound, db, [])
    else
      let r := delete_checkin db checkin_id
      if r.1 then (.ok (), r.2.1, r.2.2)
      else (.error .notFound, r.2.1, r.2.2)

/-! ## Concrete fixtures used by witnesses and counterexamples. -/

/-- A completely empty store. -/
def dbEmpty : DB :=
  { conversations := [], messages := [], goals := [], check_ins := [],
    nextConvId := 0, nextMsgId := 0, nextGoalId := 0, nextCheckInId := 0,
    clock := 0 }

/-- One conversation owned by user 1. -/
def conv0 : Conv :=
  { id := 0, user_id := 1, session_id := "conv-0", title := none,
    created_at := 0, updated_at := 0 }

/-- A store holding just `conv0`. -/
def db0 : DB :=
  { conversations := [conv0], messages := [], goals := [], check_ins := [],
    nextConvId := 1, nextMsgId := 0, nextGoalId := 0, nextCheckInId := 0,
    clock := 1 }

/-- One goal owned by user 1 with a streak of 2 (the spec's concrete
scenario). -/
def goal0 : Goal :=
  { id := 0, user_id := 1, title := "run", description := none,
    status := "active", streak_count := 2, created_at := 0, updated_at := 0 }

/-- A store holding just `goal0`. -/
def dbGoal : DB :=
  { conversations := [], messages := [], goals := [goal0], check_ins := [],
    nextConvId := 0, nextMsgId := 0, nextGoalId := 1, nextCheckInId := 0,
    clock := 1 }

/-! ## Helper lemmas -/

/-- `find?` skips a prefix on which the predicate is everywhere false. -/
theorem find_append_left_none {α : Type} (p : α → Bool) (l₁ l₂ : List α)
    (h : ∀ a ∈ l₁, p a = false) : (l₁ ++ l₂).find? p = l₂.find? p := by
  induction l₁ with
  | nil => rfl
  | cons a l ih =>
    have ha := h a (List.mem_cons_self a l)
    simp only [List.cons_append, List.find?, ha]
    exact ih (fun x hx => h x (List.mem_cons_of_mem a hx))

/-- `find?` through a conditional row update that preserves the predicate. -/
theorem find_map_update {α : Type} (p : α → Bool) (f : α → α) (l : List α)
    (hp : ∀ x, p x = true → p (f x) = true) :
    (l.map (fun x => if p x then f x else x)).find? p = (l.find? p).map f := by
  induction l with
  | nil => rfl
  | cons a l ih =>
    cases ha : p a with
    | true =>
      simp only [List.map, List.find?, ha, if_pos, hp a ha]
      rfl
    | false =>
      simp only [List.map, List.find?, ha, if_neg, ih, Bool.false_eq_true,
        not_false_eq_true]

/-- `filter` of a list on which the predicate is everywhere false is empty. -/
theorem filter_false_nil {α : Type} (p : α → Bool) (l : List α)
    (h : ∀ a ∈ l, p a = false) : l.filter p = [] := by
  induction l with
  | nil => rfl
  | cons a l ih =>
    have ha := h a (List.mem_cons_self a l)
    simp only [List.filter, ha]
    exact ih (fun x hx => h x (List.mem_cons_of_mem a hx))

/-- Every committed state produced by `crud.create_message` already carries
the appended message row. -/
theorem create_message_trace_messages (db : DB) (conversation_id : Nat)
    (role content : String) (kw : Option (List String)) :
    ∀ s ∈ (create_message db conversation_id role content kw).2.2,
      s.messages = db.messages ++
        [{ id := db.nextMsgId, conversation_id := conversation_id,
           role := role, content := content, keywords := kw,
           created_at := db.clock }] := by
  simp only [create_message, update_conversation_timestamp]
  split <;> intro s hs <;>
    simp only [List.mem_cons, List.not_mem_nil, or_false] at hs
  · subst hs; rfl
  · rcases hs with h | h <;> subst h <;> rfl

/-- Effect of `crud.create_message` on the message table: exactly the one new
row is appended (the follow-up timestamp touch never changes `messages`). -/
theorem create_message_messages_eq (db : DB) (conversation_id : Nat)
    (role content : String) (kw : Option (List String)) :
    ((create_message db conversation_id role content kw).2.1).messages =
      db.messages ++
        [{ id := db.nextMsgId, conversation_id := conversation_id,
           role := role, content := content, keywords := kw,
           created_at := db.clock }] := by
  simp only [create_message, update_conversation_timestamp]
  split <;> rfl

/-! ## Claims -/

/-- **C1** (spec-modelled `create_message_pair`): for every successful
buffered chat turn (the inference call returns status 200), exactly one user
message and one assistant message are appended to the conversation's message
list as a single atomic unit — the trace of committed states is exactly the
one final state, so no reader can observe one message of the pair without
the other — with the user message's order position immediately preceding the
assistant message's, and both persisted messages are returned to the
caller. -/
theorem buffered_success_appends_atomic_pair (db : DB) (uid : Nat)
    (sid msg resp : String) (usage : List (String × Nat)) (c : Conv)
    (hfind : get_conversation_by_session_id db sid = some c)
    (hown : c.user_id = uid) :
    (send_message db uid sid msg (.ok resp usage)).2.1.messages =
      db.messages ++
        [{ id := db.nextMsgId, conversation_id := c.id, role := "user",
           content := msg, keywords := none, created_at := db.clock },
         { id := db.nextMsgId + 1, conversation_id := c.id, role := "assistant",
           content := resp, keywords := none, created_at := db.clock + 1 }] ∧
    get_conversation_messages (send_message db uid sid msg (.ok resp usage)).2.1 c.id =
      get_conversation_messages db c.id ++
        [{ id := db.nextMsgId, conversation_id := c.id, role := "user",
           content := msg, keywords := none, created_at := db.clock },
         { id := db.nextMsgId + 1, conversation_id := c.id, role := "assistant",
           content := resp, keywords := none, created_at := db.clock + 1 }] ∧
    (send_message db uid sid msg (.ok resp usage)).2.2 =
      [(send_message db uid sid msg (.ok resp usage)).2.1] ∧
    (send_message db uid sid msg (.ok resp usage)).1 =
      .ok { session_id := sid,
            user_message := { id := db.nextMsgId, role := "user",
                              content := msg, created_at := db.clock },
            assistant_message := { id := db.nextMsgId + 1, role := "assistant",
                                   content := resp, created_at := db.clock + 1 },
            usage := usage } := by
  simp only [send_message, hfind, hown, ne_eq, not_true_eq_false, if_false,
    create_message_pair, get_conversation_messages]
  simp [List.filter_append]

/-- Witness for C1 at a concrete store. -/
theorem buffered_success_appends_atomic_pair_witness :
    get_conversation_by_session_id db0 "conv-0" = some conv0 ∧
    conv0.user_id = 1 ∧
    (send_message db0 1 "conv-0" "Hi" (.ok "Hello!" [])).2.1.messages =
      db0.messages ++
        [{ id := db0.nextMsgId, conversation_id := conv0.id, role := "user",
           content := "Hi", keywords := none, created_at := db0.clock },
         { id := db0.nextMsgId + 1, conversation_id := conv0.id,
           role := "assistant", content := "Hello!", keywords := none,
           created_at := db0.clock + 1 }] := by
  have h := buffered_success_appends_atomic_pair db0 1 "conv-0" "Hi" "Hello!"
    [] conv0 rfl rfl
  exact ⟨rfl, rfl, h.1⟩

/-- **C3**: for every buffered chat turn in which the inference call fails
(timeout, connection error, or non-200 status), the turn aborts before any
write: the final state equals the initial state, the trace of committed
states is empty, and the route returns an error. -/
theorem buffered_failure_leaves_history_unchanged (db : DB) (uid : Nat)
    (sid msg : String) (inf : InferenceOutcome)
    (hfail : ∀ r u, inf ≠ .ok r u) :
    (send_message db uid sid msg inf).2.1 = db ∧
    (send_message db uid sid msg inf).2.2 = [] ∧
    ∃ e, (send_message db uid sid msg inf).1 = .error e := by
  cases hc : get_conversation_by_session_id db sid with
  | none => simp [send_message, hc]
  | some c =>
    by_cases ho : c.user_id ≠ uid
    · simp [send_message, hc, ho]
    · cases inf with
      | ok r u => exact absurd rfl (hfail r u)
      | timeout => simp [send_message, hc, ho]
      | non200 code => simp [send_message, hc, ho]
      | connectError e => simp [send_message, hc, ho]
      | otherError e => simp [send_message, hc, ho]

/-- Witness for C3: a timeout against `db0` writes nothing. -/
theorem buffered_failure_leaves_history_unchanged_witness :
    (∀ r u, InferenceOutcome.timeout ≠ InferenceOutcome.ok r u) ∧
    ((send_message db0 1 "conv-0" "Hi" .timeout).2.1 = db0 ∧
     (send_message db0 1 "conv-0" "Hi" .timeout).2.2 = [] ∧
     ∃ e, (send_message db0 1 "conv-0" "Hi" .timeout).1 = .error e) :=
  ⟨(fun _ _ h => by cases h),
   (buffered_failure_leaves_history_unchanged db0 1 "conv-0" "Hi" .timeout
     (fun _ _ h => by cases h))⟩

/-- **C2 counterexample**: the buffered chat route distinguishes "not owned"
from "not found".  With `conv0` owned by user 1, a buffered chat request by
user 2 against the existing conversation yields `forbidden` (HTTP 403,
`"Access denied"` in the source), while the same request when the
conversation does not exist yields `notFound` (HTTP 404) — two different
externally observable outcomes. -/
theorem ownership_collapse_counterexample :
    (send_message db0 2 "conv-0" "Hi" (.ok "Hello!" [])).1 = .error .forbidden ∧
    (send_message dbEmpty 2 "conv-0" "Hi" (.ok "Hello!" [])).1 = .error .notFound ∧
    HttpError.forbidden ≠ HttpError.notFound := by
  refine ⟨rfl, rfl, by decide⟩

/-- **C2 amended**: the streaming chat, get-conversation, list-messages and
delete endpoints collapse "not owned" and "not found" into the same
not-found outcome (and return no message of the conversation, mutating
nothing); the buffered chat endpoint alone instead answers `forbidden` when
the conversation exists but belongs to another user, which is
distinguishable from its not-found outcome. -/
theorem ownership_collapse_amended (db db' : DB) (uid : Nat) (sid msg : String)
    (inf : InferenceOutcome) (u u' : Upstream) (c : Conv)
    (hfind : get_conversation_by_session_id db sid = some c)
    (hB : c.user_id ≠ uid)
    (hnone : get_conversation_by_session_id db' sid = none) :
    (send_message_streaming db uid sid msg u).1 = .error .notFound ∧
    get_conversation_route db uid sid = .error .notFound ∧
    get_messages_route db uid sid = .error .notFound ∧
    (delete_conversation_route db uid sid).1 = .error .notFound ∧
    (send_message_streaming db' uid sid msg u').1 = .error .notFound ∧
    get_conversation_route db' uid sid = .error .notFound ∧
    get_messages_route db' uid sid = .error .notFound ∧
    (delete_conversation_route db' uid sid).1 = .error .notFound ∧
    (send_message db' uid sid msg inf).1 = .error .notFound ∧
    (send_message db uid sid msg inf).1 = .error .forbidden ∧
    (send_message_streaming db uid sid msg u).2.1 = db ∧
    (delete_conversation_route db uid sid).2.1 = db := by
  simp [send_message_streaming, get_conversation_route, get_messages_route,
    delete_conversation_route, send_message, hfind, hB, hnone]

/-- Witness for the amended C2 at a concrete store. -/
theorem ownership_collapse_amended_witness :
    get_conversation_by_session_id db0 "conv-0" = some conv0 ∧
    conv0.user_id ≠ 2 ∧
    get_conversation_by_session_id dbEmpty "conv-0" = none ∧
    (send_message_streaming db0 2 "conv-0" "Hi" ⟨["x"], .normal⟩).1 =
      .error .notFound ∧
    (send_message db0 2 "conv-0" "Hi" (.ok "Hello!" [])).1 =
      .error .forbidden := by
  have h := ownership_collapse_amended db0 dbEmpty 2 "conv-0" "Hi"
    (.ok "Hello!" []) ⟨["x"], .normal⟩ ⟨["x"], .normal⟩ conv0 rfl
    (by decide) rfl
  exact ⟨rfl, by decide, rfl, h.1, h.2.2.2.2.2.2.2.2.2.1⟩

/-- **C4 counterexample**: conversation creation commits the conversation row
*before* the system-prompt message, in a separate unit of work.  In the
committed-state trace of the creation route on an empty store, the first
committed state already contains the new conversation — it is visible via
its session handle — with zero messages; the system prompt only arrives with
the second commit (the trace has three committed states in total). -/
theorem creation_zero_message_state_observable :
    ((create_conversation_route dbEmpty 1 none).2.2.headD dbEmpty).conversations.length = 1 ∧
    (get_conversation_by_session_id
        ((create_conversation_route dbEmpty 1 none).2.2.headD dbEmpty) "conv-0").isSome = true ∧
    get_conversation_messages
        ((create_conversation_route dbEmpty 1 none).2.2.headD dbEmpty) 0 = [] ∧
    (create_conversation_route dbEmpty 1 none).2.2.length = 3 := by
  refine ⟨rfl, rfl, rfl, rfl⟩

/-- **C4 amended**: once the creation route has completed, the new
conversation's message list is exactly the one system-role persona-prompt
message, and every committed state from the system-prompt insert onwards
shows the conversation with at least one message; however the conversation
row itself is committed (and hence visible to readers) one unit of work
earlier, with zero messages — the zero-message state is observable
(`creation_zero_message_state_observable`). -/
theorem creation_completes_with_system_prompt (db : DB) (uid : Nat)
    (title : Option String)
    (hfresh : ∀ m ∈ db.messages, (m.conversation_id == db.nextConvId) = false) :
    get_conversation_messages (create_conversation_route db uid title).2.1
        db.nextConvId =
      [{ id := db.nextMsgId, conversation_id := db.nextConvId,
         role := "system", content := SYSTEM_PROMPT, keywords := none,
         created_at := db.clock + 1 }] ∧
    (create_conversation_route db uid title).1.message_count = 1 ∧
    ∀ s ∈ (create_conversation_route db uid title).2.2.drop 1,
      get_conversation_messages s db.nextConvId ≠ [] := by
  have hmsgs := create_message_messages_eq
    (create_conversation db uid title).2.1 db.nextConvId "system" SYSTEM_PROMPT none
  have htr := create_message_trace_messages
    (create_conversation db uid title).2.1 db.nextConvId "system" SYSTEM_PROMPT none
  have hmid : (create_conversation db uid title).2.1.messages = db.messages := rfl
  have hnext : (create_conversation db uid title).2.1.nextMsgId = db.nextMsgId := rfl
  have hclk : (create_conversation db uid title).2.1.clock = db.clock + 1 := rfl
  refine ⟨?_, rfl, ?_⟩
  · show ((create_message (create_conversation db uid title).2.1 db.nextConvId
        "system" SYSTEM_PROMPT none).2.1.messages).filter
        (fun m => m.conversation_id == db.nextConvId) = _
    rw [hmsgs, hmid, hnext, hclk, List.filter_append,
      filter_false_nil _ _ hfresh]
    simp
  · intro s hs
    have hs' : s ∈ (create_message (create_conversation db uid title).2.1
        db.nextConvId "system" SYSTEM_PROMPT none).2.2 := by
      simpa [create_conversation_route, create_conversation] using hs
    have := htr s hs'
    show (s.messages).filter (fun m => m.conversation_id == db.nextConvId) ≠ []
    rw [this, hmid, hnext, hclk, List.filter_append,
      filter_false_nil _ _ hfresh]
    simp

/-- Witness for the amended C4 on the empty store. -/
theorem creation_completes_with_system_prompt_witness :
    (∀ m ∈ dbEmpty.messages, (m.conversation_id == dbEmpty.nextConvId) = false) ∧
    get_conversation_messages (create_conversation_route dbEmpty 1 none).2.1
        dbEmpty.nextConvId =
      [{ id := dbEmpty.nextMsgId, conversation_id := dbEmpty.nextConvId,
         role := "system", content := SYSTEM_PROMPT, keywords := none,
         created_at := dbEmpty.clock + 1 }] :=
  ⟨(fun m hm => absurd hm (List.not_mem_nil m)),
   (creation_completes_with_system_prompt dbEmpty 1 none
     (fun m hm => absurd hm (List.not_mem_nil m))).1⟩

/-- **C5**: for every streaming chat turn that receives at least one chunk
from upstream and completes normally, the conversation's history grows by
exactly two messages — the user message then the assistant message — and the
persisted assistant message's content equals the concatenation, in arrival
order, of all chunks forwarded to the caller (the route forwards exactly the
upstream chunks).  "Receives at least one chunk" is formalised as the
received content being nonempty, matching §4.4 step 5, which identifies
"zero content" with "closed immediately or failed before any bytes"; a
nonempty concatenation implies the chunk list is nonempty. -/
theorem streaming_success_appends_two (db : DB) (uid : Nat) (sid msg : String)
    (u : Upstream) (c : Conv)
    (hfind : get_conversation_by_session_id db sid = some c)
    (hown : c.user_id = uid)
    (hnormal : u.ending = .normal)
    (hcontent : String.join u.chunks ≠ "") :
    (send_message_streaming db uid sid msg u).1 = .ok u.chunks ∧
    ∃ um am,
      get_conversation_messages (send_message_streaming db uid sid msg u).2.1
          c.id =
        get_conversation_messages db c.id ++ [um, am] ∧
      um.role = "user" ∧ um.content = msg ∧
      am.role = "assistant" ∧ am.content = String.join u.chunks := by
  simp only [send_message_streaming, hfind, hown, ne_eq, not_true_eq_false,
    if_false, stream_generator, hnormal, hcontent, if_true]
  refine ⟨rfl, ?_⟩
  refine ⟨{ id := db.nextMsgId, conversation_id := c.id, role := "user",
            content := msg, keywords := none, created_at := db.clock },
          { id := (create_message db c.id "user" msg none).2.1.nextMsgId,
            conversation_id := c.id, role := "assistant",
            content := String.join u.chunks, keywords := none,
            created_at := (create_message db c.id "user" msg none).2.1.clock },
          ?_, rfl, rfl, rfl, rfl⟩
  show ((create_message (create_message db c.id "user" msg none).2.1 c.id
      "assistant" (String.join u.chunks) none).2.1.messages).filter
      (fun m => m.conversation_id == c.id) = _
  rw [create_message_messages_eq, create_message_messages_eq]
  simp [get_conversation_messages, List.filter_append, List.append_assoc]

/-- Witness for C5: one chunk `"Hel"` then `"lo!"`, completing normally. -/
theorem streaming_success_appends_two_witness :
    get_conversation_by_session_id db0 "conv-0" = some conv0 ∧
    conv0.user_id = 1 ∧
    (Upstream.mk ["Hel", "lo!"] .normal).ending = .normal ∧
    String.join (Upstream.mk ["Hel", "lo!"] .normal).chunks ≠ "" ∧
    (send_message_streaming db0 1 "conv-0" "Hi" ⟨["Hel", "lo!"], .normal⟩).1 =
      .ok ["Hel", "lo!"] :=
  ⟨rfl, rfl, rfl, (by decide),
   (streaming_success_appends_two db0 1 "conv-0" "Hi" ⟨["Hel", "lo!"], .normal⟩
     conv0 rfl rfl rfl (by decide)).1⟩

/-- **C6**: for every streaming chat turn whose upstream stream yields zero
bytes (no chunks: it closes immediately or fails before any content), the
user message is persisted but no assistant message is written — the
conversation's history grows by exactly one message, with role `user`. -/
theorem streaming_zero_bytes_user_only (db : DB) (uid : Nat) (sid msg : String)
    (u : Upstream) (c : Conv)
    (hfind : get_conversation_by_session_id db sid = some c)
    (hown : c.user_id = uid)
    (hzero : u.chunks = []) :
    ∃ um,
      get_conversation_messages (send_message_streaming db uid sid msg u).2.1
          c.id =
        get_conversation_messages db c.id ++ [um] ∧
      um.role = "user" ∧ um.content = msg := by
  refine ⟨{ id := db.nextMsgId, conversation_id := c.id, role := "user",
            content := msg, keywords := none, created_at := db.clock },
          ?_, rfl, rfl⟩
  cases hend : u.ending with
  | normal =>
    simp only [send_message_streaming, hfind, hown, ne_eq, not_true_eq_false,
      if_false, stream_generator, hzero, hend]
    show ((create_message db c.id "user" msg none).2.1.messages).filter
        (fun m => m.conversation_id == c.id) = _
    rw [create_message_messages_eq]
    simp [get_conversation_messages, List.filter_append]
  | failed e =>
    simp only [send_message_streaming, hfind, hown, ne_eq, not_true_eq_false,
      if_false, stream_generator, hzero, hend]
    show ((create_message db c.id "user" msg none).2.1.messages).filter
        (fun m => m.conversation_id == c.id) = _
    rw [create_message_messages_eq]
    simp [get_conversation_messages, List.filter_append]

/-- Witness for C6: the upstream closes immediately. -/
theorem streaming_zero_bytes_user_only_witness :
    get_conversation_by_session_id db0 "conv-0" = some conv0 ∧
    conv0.user_id = 1 ∧
    (Upstream.mk [] .normal).chunks = [] ∧
    ∃ um,
      get_conversation_messages
          (send_message_streaming db0 1 "conv-0" "Hi" ⟨[], .normal⟩).2.1
          conv0.id =
        get_conversation_messages db0 conv0.id ++ [um] ∧
      um.role = "user" ∧ um.content = "Hi" :=
  ⟨rfl, rfl, rfl,
   streaming_zero_bytes_user_only db0 1 "conv-0" "Hi" ⟨[], .normal⟩ conv0
     rfl rfl rfl⟩

/-- **C7**: for every streaming chat turn that fails mid-stream (an exception
after at least one chunk was forwarded), the terminal error marker is
forwarded to the caller in-band as the last element of the response stream,
and no partial assistant message is written: the only message the turn
persists is the user message. -/
theorem streaming_midfail_no_assistant_write (db : DB) (uid : Nat)
    (sid msg e : String) (u : Upstream) (c : Conv)
    (hfind : get_conversation_by_session_id db sid = some c)
    (hown : c.user_id = uid)
    (hbegun : u.chunks ≠ [])
    (hfail : u.ending = .failed e) :
    (send_message_streaming db uid sid msg u).1 =
      .ok (u.chunks ++ [errorMarker e]) ∧
    ∃ um,
      get_conversation_messages (send_message_streaming db uid sid msg u).2.1
          c.id =
        get_conversation_messages db c.id ++ [um] ∧
      um.role = "user" ∧ um.content = msg := by
  simp only [send_message_streaming, hfind, hown, ne_eq, not_true_eq_false,
    if_false, stream_generator, hfail]
  refine ⟨by simp, ?_⟩
  refine ⟨{ id := db.nextMsgId, conversation_id := c.id, role := "user",
            content := msg, keywords := none, created_at := db.clock },
          ?_, rfl, rfl⟩
  show ((create_message db c.id "user" msg none).2.1.messages).filter
      (fun m => m.conversation_id == c.id) = _
  rw [create_message_messages_eq]
  simp [get_conversation_messages, List.filter_append]

/-- Witness for C7: upstream fails after one chunk. -/
theorem streaming_midfail_no_assistant_write_witness :
    get_conversation_by_session_id db0 "conv-0" = some conv0 ∧
    conv0.user_id = 1 ∧
    (Upstream.mk ["Hel"] (.failed "boom")).chunks ≠ [] ∧
    (Upstream.mk ["Hel"] (.failed "boom")).ending = .failed "boom" ∧
    (send_message_streaming db0 1 "conv-0" "Hi" ⟨["Hel"], .failed "boom"⟩).1 =
      .ok (["Hel"] ++ [errorMarker "boom"]) :=
  ⟨rfl, rfl, (by decide), rfl,
   (streaming_midfail_no_assistant_write db0 1 "conv-0" "Hi" "boom"
     ⟨["Hel"], .failed "boom"⟩ conv0 rfl rfl (by decide) rfl).1⟩

/-- **C8 counterexample**: `crud.create_message` is two units of work, not
one.  On `db0` (whose single conversation has `updated_at = 0` and whose
clock is 1), the trace has two committed states; in the first, the new
message is already present while the conversation's `updated_at` is still 0
— an observable intermediate state in which the message exists but the
conversation's updated-at has not yet advanced (it only becomes 2 with the
second commit). -/
theorem append_touch_not_atomic_counterexample :
    (create_message db0 0 "user" "Hi" none).2.2.length = 2 ∧
    (((create_message db0 0 "user" "Hi" none).2.2.headD db0).messages.map
        Msg.id) = [0] ∧
    (((create_message db0 0 "user" "Hi" none).2.2.headD db0).conversations.map
        Conv.updated_at) = [0] ∧
    ((create_message db0 0 "user" "Hi" none).2.1.conversations.map
        Conv.updated_at) = [2] ∧
    conv0.updated_at = 0 := by decide

/-- **C8 amended**: every `crud.create_message` call whose parent
conversation exists advances the conversation's `updated_at` (to a value
strictly greater than before), but it does so in a *second* unit of work
immediately after the message insert: the trace has exactly two committed
states, and in the first the message row is already present while all
conversation rows — in particular the parent's `updated_at` — are still
unchanged. -/
theorem append_advances_updated_at_in_second_commit (db : DB) (cid : Nat)
    (role content : String) (kw : Option (List String)) (c : Conv)
    (hc : db.conversations.find? (fun x => x.id == cid) = some c)
    (hclk : c.updated_at < db.clock) :
    (create_message db cid role content kw).2.1.conversations.find?
        (fun x => x.id == cid) = some { c with updated_at := db.clock + 1 } ∧
    c.updated_at < db.clock + 1 ∧
    (create_message db cid role content kw).2.2.length = 2 ∧
    ((create_message db cid role content kw).2.2.headD db).conversations =
      db.conversations ∧
    ((create_message db cid role content kw).2.2.headD db).messages =
      db.messages ++
        [{ id := db.nextMsgId, conversation_id := cid, role := role,
           content := content, keywords := kw,
           created_at := db.clock }] := by
  simp only [create_message, update_conversation_timestamp, hc]
  refine ⟨?_, Nat.lt_succ_of_lt hclk, rfl, rfl, rfl⟩
  have h := find_map_update (fun x : Conv => x.id == cid)
    (fun x => { x with updated_at := db.clock + 1 }) db.conversations
    (fun x hx => hx)
  rw [h, hc]
  rfl

/-- Witness for the amended C8 on `db0`. -/
theorem append_advances_updated_at_in_second_commit_witness :
    db0.conversations.find? (fun x => x.id == 0) = some conv0 ∧
    conv0.updated_at < db0.clock ∧
    (create_message db0 0 "user" "Hi" none).2.1.conversations.find?
        (fun x => x.id == 0) = some { conv0 with updated_at := db0.clock + 1 } ∧
    (create_message db0 0 "user" "Hi" none).2.2.length = 2 :=
  ⟨rfl, (by decide),
   (append_advances_updated_at_in_second_commit db0 0 "user" "Hi" none conv0
     rfl (by decide)).1,
   (append_advances_updated_at_in_second_commit db0 0 "user" "Hi" none conv0
     rfl (by decide)).2.2.1⟩

/-- **C9**: a check-in created with `completed=true` on an existing goal
increments that goal's `streak_count` by exactly one; a check-in created
with `completed=false` leaves the goal table (hence every `streak_count`)
unchanged. -/
theorem checkin_streak_increment (db : DB) (gid : Nat) (note : Option String)
    (g : Goal) (hg : get_goal_by_id db gid = some g) :
    (∃ g', get_goal_by_id (create_goal_checkin db gid note true).2.1 gid =
        some g' ∧ g'.streak_count = g.streak_count + 1) ∧
    (create_goal_checkin db gid note false).2.1.goals = db.goals := by
  refine ⟨?_, rfl⟩
  have h := find_map_update (fun x : Goal => x.id == gid)
    (fun x => { x with streak_count := x.streak_count + 1,
                       updated_at := db.clock + 1 })
    db.goals (fun x hx => hx)
  simp only [create_goal_checkin, get_goal_by_id] at hg ⊢
  rw [if_pos trivial, hg]
  refine ⟨{ g with streak_count := g.streak_count + 1, updated_at := db.clock + 1 }, ?_, rfl⟩
  rw [h, hg]
  rfl

/-- Witness for C9: the spec's concrete scenario — streak 2 becomes 3 on a
completed check-in, and stays 2 on a not-completed one. -/
theorem checkin_streak_increment_witness :
    get_goal_by_id dbGoal 0 = some goal0 ∧
    goal0.streak_count = 2 ∧
    ((∃ g', get_goal_by_id (create_goal_checkin dbGoal 0 none true).2.1 0 =
        some g' ∧ g'.streak_count = goal0.streak_count + 1) ∧
     (create_goal_checkin dbGoal 0 none false).2.1.goals = dbGoal.goals) :=
  ⟨rfl, rfl, checkin_streak_increment dbGoal 0 none goal0 rfl⟩

/-- **C10**: updating or deleting an existing check-in — including flipping
its `completed` flag in either direction, and at both the CRUD layer and the
route layer — leaves the goal table (hence every goal's `streak_count`)
unchanged: the streak counter only ever changes at check-in creation. -/
theorem checkin_update_delete_streak_frame (db : DB) (uid gid checkin_id : Nat)
    (note : Option String) (completed : Option Bool) :
    (update_checkin db checkin_id note completed).2.1.goals = db.goals ∧
    (delete_checkin db checkin_id).2.1.goals = db.goals ∧
    (update_checkin_route db uid gid checkin_id note completed).2.1.goals =
      db.goals ∧
    (delete_checkin_route db uid gid checkin_id).2.1.goals = db.goals := by
  refine ⟨?_, ?_, ?_, ?_⟩ <;>
    simp only [update_checkin, delete_checkin, update_checkin_route,
      delete_checkin_route] <;>
    (repeat' split) <;> rfl
